import Mathlib

set_option maxHeartbeats 1000000

/-!
Shallow embedding of the BFBC2 server status Discord bot
(`bfbc2_server.py` and `bfbc2_discord_bot.py`).

Python strings are modelled as Lean `String`s; comparisons and case
folding work on the underlying `List Char` (code points), matching
Python's lexicographic string order and `str.lower`.  Python `dict`s
with a fixed key set are modelled as structures whose fields are
`Option`-valued (a missing key is `none`); `dict.get(k, d)` becomes
`Option.getD`.  Network and chat calls are oracles supplied to the
tick function, so one tick is a pure function of its environment.
-/

/-- Python string `<=` on the underlying code points (lexicographic,
a proper prefix is smaller). -/
def strLe : List Char → List Char → Bool
  | [], _ => true
  | _ :: _, [] => false
  | c :: cs, d :: ds =>
    if c.toNat < d.toNat then true
    else if d.toNat < c.toNat then false
    else strLe cs ds

/-- Python `s.lower()` viewed as a list of chars. -/
def pyLower (s : String) : List Char := s.data.map Char.toLower

/-- Comparison key used by `get_player_list`'s sort:
`lambda name: name.lower()`, compared with Python string order. -/
def ciLe (a b : String) : Bool := strLe (pyLower a) (pyLower b)

/-- Python substring test `needle in hay` on lists of chars. -/
def strContainsSub (needle : List Char) : List Char → Bool
  | [] => needle.isEmpty
  | h :: t => needle.isPrefixOf (h :: t) || strContainsSub needle t

/-- The test `name.lower() in hay.lower()` from `find_server_by_name`. -/
def contains_ci (hay needle : String) : Bool :=
  strContainsSub (pyLower needle) (pyLower hay)

/-- `BFBC2_MAP_NAMES` from `bfbc2_server.py` (association list). -/
def BFBC2_MAP_NAMES : List (String × String) := [
  ("Levels/MP_001", "Panama Canal"),
  ("Levels/MP_002", "Valparaiso"),
  ("Levels/MP_003", "Laguna Alta"),
  ("Levels/MP_004", "Isla Inocentes"),
  ("Levels/MP_005", "Atacama Desert"),
  ("Levels/MP_006", "Arica Harbor"),
  ("Levels/MP_007", "White Pass"),
  ("Levels/MP_008", "Nelson Bay"),
  ("Levels/MP_009", "Laguna Presa"),
  ("Levels/MP_012", "Port Valdez"),
  ("Levels/BC1_Oasis", "Oasis"),
  ("Levels/BC1_Harvest_Day", "Harvest Day"),
  ("Levels/MP_SP_002", "Cold War"),
  ("Levels/MP_SP_005", "Heavy Metal"),
  ("Levels/NAM_MP_002", "Vantage Point"),
  ("Levels/NAM_MP_003", "Hill 137"),
  ("Levels/NAM_MP_005", "Cao Son Temple"),
  ("Levels/NAM_MP_006", "Phu Bai Valley"),
  ("Levels/NAM_MP_007", "Operation Hastings")]

/-- `BFBC2_GAME_MODES` from `bfbc2_server.py`. -/
def BFBC2_GAME_MODES : List (String × String) := [
  ("CONQUEST", "Conquest"),
  ("RUSH", "Rush"),
  ("SQDM", "Squad Deathmatch"),
  ("SQRUSH", "Squad Rush")]

/-- `BFBC2_REGIONS` from `bfbc2_server.py`. -/
def BFBC2_REGIONS : List (String × String) := [
  ("EU", "Europe"),
  ("NA", "North America"),
  ("SA", "South America"),
  ("AS", "Asia"),
  ("OC", "Oceania"),
  ("AF", "Africa")]

/-- `get_map_name`: `BFBC2_MAP_NAMES.get(level_code, level_code)`. -/
def get_map_name (level_code : String) : String :=
  (BFBC2_MAP_NAMES.lookup level_code).getD level_code

/-- `get_game_mode_name`: `BFBC2_GAME_MODES.get(mode_code, mode_code)`. -/
def get_game_mode_name (mode_code : String) : String :=
  (BFBC2_GAME_MODES.lookup mode_code).getD mode_code

/-- `get_region_name`: `BFBC2_REGIONS.get(region_code, region_code)`. -/
def get_region_name (region_code : String) : String :=
  (BFBC2_REGIONS.lookup region_code).getD region_code

/-- A raw server record from the directory list (one JSON object).
Fields mirror the short-coded keys the source reads: `LID`, `GID`,
`N`, `AP`, `MP`, `B-U-level`, `B-U-gamemode`, `B-U-region`, `I`, `P`.
A missing key is `none`. -/
structure ServerRec where
  LID : Option Int
  GID : Option Int
  N : Option String
  AP : Option Int
  MP : Option Int
  B_U_level : Option String
  B_U_gamemode : Option String
  B_U_region : Option String
  I : Option String
  P : Option Int
deriving DecidableEq

/-- One entry of the `D-Players` array of a detail record. -/
structure PlayerRec where
  name : Option String
deriving DecidableEq

/-- A raw detail record (`fetch_server_details` response body); only
the `D-Players` key is relevant to the embedded functions. -/
structure ServerDetails where
  dPlayers : Option (List PlayerRec)
deriving DecidableEq

/-- Python `KeyError`, the only exception the embedded
`fetch_server_details` can raise (missing `LID`/`GID`). -/
inductive PyErr
  | keyError
deriving DecidableEq

/-- Result of the HTTP GET for a server's detail URL. -/
inductive HttpResult
  | ok (d : ServerDetails)
  | requestError
deriving DecidableEq

/-- `fetch_server_details(server, timeout)`.  The subscript reads
`server['LID']` and `server['GID']` happen before the `try` block, so
a record missing either key raises `KeyError` to the caller; inside
the `try`, a `requests.RequestException` is absorbed into `None`. -/
def fetch_server_details (server : ServerRec) (http : Int → Int → HttpResult) :
    Except PyErr (Option ServerDetails) :=
  match server.LID with
  | none => Except.error PyErr.keyError
  | some lid =>
    match server.GID with
    | none => Except.error PyErr.keyError
    | some gid =>
      match http lid gid with
      | HttpResult.ok d => Except.ok (some d)
      | HttpResult.requestError => Except.ok none

/-- `find_server_by_name(servers, name)`: first record (in input
order) whose `N` field (default `''`) contains the query
case-insensitively; `None` when there is no match. -/
def find_server_by_name (servers : List ServerRec) (name : String) : Option ServerRec :=
  servers.find? (fun server => contains_ci (server.N.getD "") name)

/-- The normalized snapshot assembled by `get_server_info` (plus the
`players_list` key that `get_server_with_players` attaches). -/
structure Snapshot where
  name : String
  players : String
  current_players : Int
  max_players : Int
  game_mode : String
  map : String
  map_code : String
  region : String
  players_list : List String
deriving DecidableEq

/-- `get_server_info(server)`: defaults for every missing field and
code resolution through the three lookup tables.  The `players_list`
field is filled in later by `get_server_with_players`; it starts
empty here. -/
def get_server_info (server : Option ServerRec) : Option Snapshot :=
  match server with
  | none => none
  | some s =>
    let level_code := s.B_U_level.getD "Unknown"
    some ⟨s.N.getD "Unknown",
          toString (s.AP.getD 0) ++ "/" ++ toString (s.MP.getD 0),
          s.AP.getD 0,
          s.MP.getD 0,
          get_game_mode_name (s.B_U_gamemode.getD "Unknown"),
          get_map_name level_code,
          level_code,
          get_region_name (s.B_U_region.getD "Unknown"),
          []⟩

/-- `get_player_list(server_details)`: `[]` when the details are
absent or the `D-Players` array is missing or empty; otherwise the
names (default `'Unknown'`) sorted with Python's stable sort keyed by
`name.lower()`. -/
def get_player_list (server_details : Option ServerDetails) : List String :=
  match server_details with
  | none => []
  | some sd =>
    let players := sd.dPlayers.getD []
    if players.isEmpty then []
    else (players.map (fun p => p.name.getD "Unknown")).mergeSort ciLe

/-- `mid_point = (len + 1) // 2; column1 = l[:mid]; column2 = l[mid:]`
— the two-column split used by `send_server_updates` and
`get_server_status`. -/
def split_columns (player_list : List String) : List String × List String :=
  let mid_point := (player_list.length + 1) / 2
  (player_list.take mid_point, player_list.drop mid_point)

/-- One bullet line of a player column (`f"•  {player}"`). -/
def bullet_line (player : String) : String := "•  " ++ player

/-- The values of the player-column embed fields added by the tick:
the first column is always added, the second only when non-empty
(`if column2:`). -/
def player_column_fields (player_list : List String) : List String :=
  let c := split_columns player_list
  let column1_text := String.intercalate "\n" (c.1.map bullet_line)
  let column2_text := String.intercalate "\n" (c.2.map bullet_line)
  [column1_text] ++ (if c.2.isEmpty then [] else [column2_text])

/-- Result of the `monitor_server_from_env()` call made by a tick:
either a value (possibly `None`) or an uncaught exception. -/
inductive FetchResult
  | ok (r : Option Snapshot)
  | exc
deriving DecidableEq

/-- Result of a `channel.send(embed=...)` call: the new message (its
handle), or an exception. -/
inductive SendResult
  | ok (msgId : Nat)
  | exc
deriving DecidableEq

/-- Result of a `message.edit(embed=...)` call: success,
`discord.NotFound`, another `discord.HTTPException`, or some other
exception. -/
inductive EditResult
  | ok
  | notFound
  | httpError
  | exc
deriving DecidableEq

/-- The environment of one tick: configuration globals, the channel
cache lookup, and the oracles for this tick's network/chat calls. -/
structure TickEnv where
  updateChannelId : Option Int
  serverName : Option String
  channelFound : Bool
  fetch : FetchResult
  send : SendResult
  edit : EditResult
deriving DecidableEq

/-- The two mutable globals of the bot. -/
structure BotState where
  current_message : Option Nat
  last_server_state : Option Snapshot
deriving DecidableEq

/-- Which control-flow path one tick took (the spec's outcome values;
the Python function returns `None`, so these label its return paths). -/
inductive Outcome
  | idle
  | created
  | edited
  | recreatedAfterMissingMessage
  | recreatedAfterEditError
  | failed
deriving DecidableEq

/-- Everything observable about one tick: the new globals, the path
taken, how many network/chat calls were made, the computed
`state_changed` flag (`none` when the comparison step was never
reached) and the embed color (`none` when no embed was built). -/
structure TickResult where
  state : BotState
  outcome : Outcome
  netCalls : Nat
  changed : Option Bool
  embedColor : Option Nat
deriving DecidableEq

/-- Python truthiness test `not BFBC2_SERVER_NAME` for an optional
string (both `None` and `''` are falsy). -/
def pyFalsyName : Option String → Bool
  | none => true
  | some s => s.data.isEmpty

/-- The `state_changed` expression of `send_server_updates` (lines
170-176): `last is None or (new is None) != (last is None) or (new
and last and (counts differ or maps differ))`.  Note it compares the
resolved `map` display name, not `map_code`. -/
def state_changed (last server_info : Option Snapshot) : Bool :=
  last.isNone || (server_info.isNone != last.isNone) ||
    (match server_info, last with
     | some n, some l =>
       (n.current_players != l.current_players) || (n.map != l.map)
     | _, _ => false)

/-- The embed color of the tick (lines 110-123): red `0xff0000` when
the server was not found; otherwise
`0x00ff00 if cp > 0 else 0xffaa00 if not is_empty else 0xff6600`
with `is_empty = cp == 0`. -/
def tick_embed_color : Option Snapshot → Nat
  | none => 0xff0000
  | some si =>
    let is_empty := si.current_players == 0
    if 0 < si.current_players then 0x00ff00
    else if !is_empty then 0xffaa00
    else 0xff6600

/-- One invocation of `send_server_updates` as a pure function of its
environment and the globals.  Mirrors the source line by line: the
three guard returns, the `try` body (fetch, embed build, `state_changed`,
the `last_server_state` write, dispatch with its inner handlers) and
the top-level `except` that clears `current_message` only. -/
def send_server_updates (env : TickEnv) (st : BotState) : TickResult :=
  match env.updateChannelId with
  | none => ⟨st, Outcome.idle, 0, none, none⟩
  | some _ =>
    if pyFalsyName env.serverName then ⟨st, Outcome.idle, 0, none, none⟩
    else match env.channelFound with
    | false => ⟨st, Outcome.idle, 0, none, none⟩
    | true =>
      match env.fetch with
      | FetchResult.exc =>
        ⟨⟨none, st.last_server_state⟩, Outcome.failed, 1, none, none⟩
      | FetchResult.ok server_info =>
        let color := tick_embed_color server_info
        let chg := state_changed st.last_server_state server_info
        match st.current_message with
        | none =>
          match env.send with
          | SendResult.ok m =>
            ⟨⟨some m, server_info⟩, Outcome.created, 2, some chg, some color⟩
          | SendResult.exc =>
            ⟨⟨none, server_info⟩, Outcome.failed, 2, some chg, some color⟩
        | some m0 =>
          match env.edit with
          | EditResult.ok =>
            ⟨⟨some m0, server_info⟩, Outcome.edited, 2, some chg, some color⟩
          | EditResult.notFound =>
            match env.send with
            | SendResult.ok m =>
              ⟨⟨some m, server_info⟩, Outcome.recreatedAfterMissingMessage, 3,
               some chg, some color⟩
            | SendResult.exc =>
              ⟨⟨none, server_info⟩, Outcome.failed, 3, some chg, some color⟩
          | EditResult.httpError =>
            match env.send with
            | SendResult.ok m =>
              ⟨⟨some m, server_info⟩, Outcome.recreatedAfterEditError, 3,
               some chg, some color⟩
            | SendResult.exc =>
              ⟨⟨none, server_info⟩, Outcome.failed, 3, some chg, some color⟩
          | EditResult.exc =>
            ⟨⟨none, server_info⟩, Outcome.failed, 2, some chg, some color⟩

/-- A sample found-and-empty snapshot. -/
def snapEmpty : Snapshot :=
  ⟨"Srv", "0/32", 0, 32, "Conquest", "Panama Canal", "Levels/MP_001", "Europe", []⟩

/-- A sample occupied snapshot. -/
def snapBusy : Snapshot :=
  ⟨"Srv", "5/32", 5, 32, "Rush", "Valparaiso", "Levels/MP_002", "Europe", ["a"]⟩

/-- Environment of a fully configured tick whose fetch finds nothing
(`server_info = None`) and whose chat calls succeed. -/
def envAbsent : TickEnv := ⟨some 1, some "srv", true, FetchResult.ok none, SendResult.ok 7, EditResult.ok⟩

/-- Environment of a fully configured tick that fetches `snapBusy`
and whose edit raises an unclassified exception. -/
def envEditExc : TickEnv :=
  ⟨some 5, some "srv", true, FetchResult.ok (some snapBusy), SendResult.ok 9, EditResult.exc⟩

/-- Environment of a fully configured tick that fetches `snapEmpty`,
whose edit fails with `discord.NotFound` and whose recovery send
succeeds. -/
def envNotFound : TickEnv :=
  ⟨some 5, some "srv", true, FetchResult.ok (some snapEmpty), SendResult.ok 42, EditResult.notFound⟩

/-- A sample raw server record named "Alpha Server". -/
def srvAlpha : ServerRec :=
  ⟨some 1, some 2, some "Alpha Server", none, none, none, none, none, none, none⟩

/-- A sample raw server record named "[EU] Beta". -/
def srvBeta : ServerRec :=
  ⟨some 1, some 3, some "[EU] Beta", none, none, none, none, none, none, none⟩

/-! ### Helper lemmas -/

theorem isPrefixOf_iff : ∀ (a b : List Char), a.isPrefixOf b = true ↔ ∃ t, a ++ t = b := by
  intro a
  induction a with
  | nil => intro b; simp [List.isPrefixOf]
  | cons x xs ih =>
    intro b
    cases b with
    | nil => simp [List.isPrefixOf]
    | cons y ys =>
      simp only [List.isPrefixOf, Bool.and_eq_true, beq_iff_eq, ih ys,
        List.cons_append, List.cons.injEq]
      constructor
      · rintro ⟨h1, t, h2⟩; exact ⟨t, h1, h2⟩
      · rintro ⟨t, h1, h2⟩; exact ⟨h1, t, h2⟩

theorem strContainsSub_iff : ∀ (needle hay : List Char),
    strContainsSub needle hay = true ↔ ∃ s t, s ++ (needle ++ t) = hay := by
  intro needle hay
  induction hay with
  | nil =>
    simp only [strContainsSub, List.isEmpty_iff]
    constructor
    · rintro rfl; exact ⟨[], [], rfl⟩
    · rintro ⟨s, t, h⟩
      rcases List.append_eq_nil.mp h with ⟨-, h2⟩
      exact (List.append_eq_nil.mp h2).1
  | cons a h ih =>
    simp only [strContainsSub, Bool.or_eq_true, isPrefixOf_iff, ih]
    constructor
    · rintro (⟨t, ht⟩ | ⟨s, t, hst⟩)
      · exact ⟨[], t, ht⟩
      · refine ⟨a :: s, t, ?_⟩
        simp [hst]
    · rintro ⟨s, t, hst⟩
      cases s with
      | nil => exact Or.inl ⟨t, hst⟩
      | cons a2 s2 =>
        injection hst with h1 h2
        exact Or.inr ⟨s2, t, h2⟩

theorem strLe_total : ∀ a b : List Char, (strLe a b || strLe b a) = true := by
  intro a
  induction a with
  | nil => intro b; simp [strLe]
  | cons c cs ih =>
    intro b
    cases b with
    | nil => simp [strLe]
    | cons d ds =>
      simp only [strLe]
      rcases Nat.lt_trichotomy c.toNat d.toNat with h | h | h
      · simp [h]
      · simp only [h, Nat.lt_irrefl, if_false]
        exact ih ds
      · simp [h, Nat.lt_asymm h]

theorem strLe_trans : ∀ a b c : List Char,
    strLe a b = true → strLe b c = true → strLe a c = true := by
  intro a
  induction a with
  | nil => intro b c _ _; cases c <;> simp [strLe]
  | cons x xs ih =>
    intro b c hab hbc
    cases b with
    | nil => simp [strLe] at hab
    | cons y ys =>
      cases c with
      | nil => simp [strLe] at hbc
      | cons z zs =>
        simp only [strLe] at hab hbc ⊢
        split at hab
        · rename_i h1
          split at hbc
          · rename_i h2
            rw [if_pos (by omega)]
          · split at hbc
            · simp at hbc
            · rename_i h2 h3
              rw [if_pos (by omega)]
        · split at hab
          · simp at hab
          · rename_i h1 h2
            split at hbc
            · rename_i h3
              rw [if_pos (by omega)]
            · split at hbc
              · simp at hbc
              · rename_i h3 h4
                rw [if_neg (by omega), if_neg (by omega)]
                exact ih ys zs hab hbc

theorem ciLe_total : ∀ a b : String, (ciLe a b || ciLe b a) = true := by
  intro a b
  exact strLe_total (pyLower a) (pyLower b)

theorem ciLe_trans : ∀ a b c : String,
    ciLe a b = true → ciLe b c = true → ciLe a c = true := by
  intro a b c
  exact strLe_trans (pyLower a) (pyLower b) (pyLower c)

theorem lookup_eq_none_of_not_mem_keys :
    ∀ (l : List (String × String)) (c : String),
      c ∉ l.map Prod.fst → l.lookup c = none := by
  intro l
  induction l with
  | nil => intro c _; rfl
  | cons p t ih =>
    intro c hc
    rcases p with ⟨k, v⟩
    simp only [List.map_cons, List.mem_cons] at hc
    push_neg at hc
    obtain ⟨h1, h2⟩ := hc
    simp only [List.lookup, beq_eq_false_iff_ne.mpr h1]
    exact ih c h2

/-! ### Claim theorems -/

/-- C8: every code present in the map, game-mode or region table
resolves to the table's display name, and every code not present
passes through unchanged (identity fallback); the resolvers are total
functions, so they can never raise. -/
theorem resolver_identity_fallback :
    (∀ code : String, code ∉ BFBC2_MAP_NAMES.map Prod.fst → get_map_name code = code) ∧
    (∀ code : String, code ∉ BFBC2_GAME_MODES.map Prod.fst → get_game_mode_name code = code) ∧
    (∀ code : String, code ∉ BFBC2_REGIONS.map Prod.fst → get_region_name code = code) ∧
    (∀ p ∈ BFBC2_MAP_NAMES, get_map_name p.1 = p.2) ∧
    (∀ p ∈ BFBC2_GAME_MODES, get_game_mode_name p.1 = p.2) ∧
    (∀ p ∈ BFBC2_REGIONS, get_region_name p.1 = p.2) := by
  refine ⟨?_, ?_, ?_, by decide, by decide, by decide⟩
  · intro code hc
    unfold get_map_name
    rw [lookup_eq_none_of_not_mem_keys _ _ hc]
    rfl
  · intro code hc
    unfold get_game_mode_name
    rw [lookup_eq_none_of_not_mem_keys _ _ hc]
    rfl
  · intro code hc
    unfold get_region_name
    rw [lookup_eq_none_of_not_mem_keys _ _ hc]
    rfl

/-- Witness for C8 at concrete codes: an unknown map code passes
through, and known map/mode/region codes resolve. -/
theorem resolver_identity_fallback_witness :
    get_map_name "Levels/XYZ" = "Levels/XYZ" ∧
    get_map_name "Levels/MP_001" = "Panama Canal" ∧
    get_game_mode_name "RUSH" = "Rush" ∧
    get_region_name "EU" = "Europe" :=
  ⟨resolver_identity_fallback.1 "Levels/XYZ" (by decide),
   resolver_identity_fallback.2.2.2.1 ("Levels/MP_001", "Panama Canal") (by decide),
   resolver_identity_fallback.2.2.2.2.1 ("RUSH", "Rush") (by decide),
   resolver_identity_fallback.2.2.2.2.2 ("EU", "Europe") (by decide)⟩

/-- C10: the two-column split puts the first `ceil(n/2)` names in
column 1 and the rest in column 2, so the columns concatenate back to
the roster in order, column 1 is never shorter than column 2, and the
second column field is added exactly when column 2 is non-empty. -/
theorem split_columns_spec (player_list : List String) :
    (split_columns player_list).1 ++ (split_columns player_list).2 = player_list ∧
    (split_columns player_list).2.length ≤ (split_columns player_list).1.length ∧
    (player_column_fields player_list).length =
      (if (split_columns player_list).2.isEmpty then 1 else 2) := by
  refine ⟨List.take_append_drop _ _, ?_, ?_⟩
  · simp only [split_columns, List.length_take, List.length_drop]
    omega
  · by_cases h : (split_columns player_list).2.isEmpty <;>
      simp [player_column_fields, h]

/-- C7: a tick invoked with no configured channel or no configured
server name (unset or empty) is a no-op: outcome `idle`, zero network
calls, both globals unchanged. -/
theorem tick_idle_noop (env : TickEnv) (st : BotState)
    (h : env.updateChannelId = none ∨ env.serverName = none ∨ env.serverName = some "") :
    send_server_updates env st = ⟨st, Outcome.idle, 0, none, none⟩ := by
  rcases env with ⟨cid, sn, cf, fr, sr, er⟩
  rcases h with h | h | h
  · subst h; rfl
  · subst h; cases cid <;> rfl
  · subst h; cases cid <;> rfl

/-- Witness for C7: a concrete unconfigured tick is the identity on
the globals and makes no calls. -/
theorem tick_idle_noop_witness :
    send_server_updates
        ⟨none, some "srv", true, FetchResult.ok none, SendResult.ok 1, EditResult.ok⟩
        ⟨some 3, some snapBusy⟩ =
      ⟨⟨some 3, some snapBusy⟩, Outcome.idle, 0, none, none⟩ :=
  tick_idle_noop _ _ (Or.inl rfl)

/-- C5: roster extraction yields the player names (with `'Unknown'`
substituted for a nameless player) as a case-insensitively ascending
sorted sequence whatever the input order (sortedness plus permutation
of the extracted names), yields `[]` when the details are absent or
the player array is missing/empty, and re-applying the extraction's
sort to an extracted roster leaves it unchanged. -/
theorem get_player_list_spec :
    get_player_list none = [] ∧
    (∀ sd : ServerDetails, sd.dPlayers = none ∨ sd.dPlayers = some [] →
       get_player_list (some sd) = []) ∧
    (∀ (sd : ServerDetails) (ps : List PlayerRec), sd.dPlayers = some ps →
       List.Pairwise (fun a b => ciLe a b = true) (get_player_list (some sd)) ∧
       (get_player_list (some sd)).Perm (ps.map (fun p => p.name.getD "Unknown"))) ∧
    (∀ sd : Option ServerDetails,
       (get_player_list sd).mergeSort ciLe = get_player_list sd) := by
  have hsorted : ∀ l : List String,
      List.Pairwise (fun a b => ciLe a b = true) (l.mergeSort ciLe) :=
    fun l => List.sorted_mergeSort ciLe_trans ciLe_total l
  refine ⟨rfl, ?_, ?_, ?_⟩
  · rintro sd (h | h) <;> simp [get_player_list, h]
  · intro sd ps h
    cases ps with
    | nil =>
      constructor
      · simp [get_player_list, h]
      · simp [get_player_list, h]
    | cons p pt =>
      have hgl : get_player_list (some sd) =
          ((p :: pt).map (fun q => q.name.getD "Unknown")).mergeSort ciLe := by
        simp [get_player_list, h]
      rw [hgl]
      exact ⟨hsorted _, List.mergeSort_perm _ _⟩
  · intro sd
    rcases sd with - | ⟨dp⟩
    · simp [get_player_list]
    · rcases dp with - | ps
      · simp [get_player_list]
      · cases ps with
        | nil => simp [get_player_list]
        | cons p pt =>
          have hgl : get_player_list (some ⟨some (p :: pt)⟩) =
              ((p :: pt).map (fun q => q.name.getD "Unknown")).mergeSort ciLe := by
            simp [get_player_list]
          rw [hgl]
          exact List.mergeSort_of_sorted (hsorted _)

/-- Witness for C5: a detail record with no player array yields `[]`;
a two-player record (one of them nameless) yields a sorted
permutation of `["b", "Unknown"]`. -/
theorem get_player_list_spec_witness :
    get_player_list (some ⟨none⟩) = [] ∧
    (List.Pairwise (fun a b => ciLe a b = true)
        (get_player_list (some ⟨some [⟨some "b"⟩, ⟨none⟩]⟩)) ∧
     (get_player_list (some ⟨some [⟨some "b"⟩, ⟨none⟩]⟩)).Perm ["b", "Unknown"]) :=
  ⟨get_player_list_spec.2.1 ⟨none⟩ (Or.inl rfl),
   get_player_list_spec.2.2.1 ⟨some [⟨some "b"⟩, ⟨none⟩]⟩ [⟨some "b"⟩, ⟨none⟩] rfl⟩

/-- C6: `find_server_by_name` returns the first record in input order
whose display name contains the query as a case-insensitive substring
(`contains_ci` is exactly substring containment of the lowered
strings), and `None` exactly when no record's name contains it. -/
theorem find_server_by_name_spec :
    (∀ hay needle : String, contains_ci hay needle = true ↔
       ∃ s t, s ++ (pyLower needle ++ t) = pyLower hay) ∧
    (∀ (servers : List ServerRec) (name : String) (r : ServerRec),
       find_server_by_name servers name = some r →
         contains_ci (r.N.getD "") name = true ∧
         ∃ pre post, servers = pre ++ r :: post ∧
           ∀ s ∈ pre, contains_ci (s.N.getD "") name = false) ∧
    (∀ (servers : List ServerRec) (name : String),
       find_server_by_name servers name = none ↔
         ∀ s ∈ servers, contains_ci (s.N.getD "") name = false) := by
  refine ⟨?_, ?_, ?_⟩
  · intro hay needle
    exact strContainsSub_iff _ _
  · intro servers name r h
    rw [find_server_by_name, List.find?_eq_some] at h
    obtain ⟨hr, pre, post, heq, hpre⟩ := h
    refine ⟨hr, pre, post, heq, ?_⟩
    intro s hs
    simpa using hpre s hs
  · intro servers name
    rw [find_server_by_name, List.find?_eq_none]
    constructor
    · intro h s hs
      simpa using h s hs
    · intro h s hs
      simp [h s hs]

/-- Witness for C6: with two records, the query "beta" skips the
non-matching first record and returns the second. -/
theorem find_server_by_name_spec_witness :
    contains_ci "[EU] Beta" "beta" = true ∧
    ∃ pre post, [srvAlpha, srvBeta] = pre ++ srvBeta :: post ∧
      ∀ s ∈ pre, contains_ci (s.N.getD "") "beta" = false :=
  find_server_by_name_spec.2.1 [srvAlpha, srvBeta] "beta" srvBeta (by decide)

/-- C3 is refuted as stated: a server record lacking the `LID`
identity field makes `fetch_server_details` raise `KeyError` to its
caller instead of returning `None` (the identity reads happen before
the `try` block). -/
theorem fetch_server_details_counterexample :
    fetch_server_details
        ⟨none, none, some "Srv", none, none, none, none, none, none, none⟩
        (fun _ _ => HttpResult.requestError) =
      Except.error PyErr.keyError := rfl

/-- C3 (amended): provided the input record carries both identity
fields `LID` and `GID`, `fetch_server_details` never raises: it
returns the parsed detail record on HTTP success and `None` on any
request error. -/
theorem fetch_server_details_spec (server : ServerRec) (http : Int → Int → HttpResult)
    (lid gid : Int) (h1 : server.LID = some lid) (h2 : server.GID = some gid) :
    fetch_server_details server http =
      Except.ok (match http lid gid with
                 | HttpResult.ok d => some d
                 | HttpResult.requestError => none) := by
  rcases hh : http lid gid with d | -
  · simp [fetch_server_details, h1, h2, hh]
  · simp [fetch_server_details, h1, h2, hh]

/-- Witness for C3 (amended) at a record with both identity fields
and a successful HTTP fetch. -/
theorem fetch_server_details_spec_witness :
    fetch_server_details
        ⟨some 2, some 3, some "Srv", none, none, none, none, none, none, none⟩
        (fun _ _ => HttpResult.ok ⟨none⟩) =
      Except.ok (some ⟨none⟩) :=
  fetch_server_details_spec _ _ 2 3 rfl rfl

theorem state_changed_iff (last r : Option Snapshot) :
    state_changed last r = true ↔
      (last = none ∨ r.isNone ≠ last.isNone ∨
        ∃ n l, r = some n ∧ last = some l ∧
          (n.current_players ≠ l.current_players ∨ n.map ≠ l.map)) := by
  cases last with
  | none => simp [state_changed]
  | some l =>
    cases r with
    | none => simp [state_changed]
    | some n => simp [state_changed]

theorem tick_ok_fields (env : TickEnv) (st : BotState) (r : Option Snapshot)
    (hf : env.fetch = FetchResult.ok r) :
    ((send_server_updates env st).changed = none ∧
     (send_server_updates env st).embedColor = none) ∨
    ((send_server_updates env st).changed =
        some (state_changed st.last_server_state r) ∧
     (send_server_updates env st).embedColor = some (tick_embed_color r)) := by
  rcases env with ⟨cid, sn, cf, fr, sr, er⟩
  rcases st with ⟨cm, ls⟩
  dsimp only at hf
  subst hf
  cases cid with
  | none => exact Or.inl ⟨rfl, rfl⟩
  | some c =>
    unfold send_server_updates
    by_cases hsn : pyFalsyName sn = true
    · rw [if_pos hsn]
      exact Or.inl ⟨rfl, rfl⟩
    · rw [if_neg hsn]
      cases cf
      · exact Or.inl ⟨rfl, rfl⟩
      · cases cm with
        | none => cases sr <;> exact Or.inr ⟨rfl, rfl⟩
        | some m0 =>
          cases er with
          | ok => exact Or.inr ⟨rfl, rfl⟩
          | notFound => cases sr <;> exact Or.inr ⟨rfl, rfl⟩
          | httpError => cases sr <;> exact Or.inr ⟨rfl, rfl⟩
          | exc => exact Or.inr ⟨rfl, rfl⟩

/-- C1 (amended): for every tick that reaches the comparison step,
`changed` is true exactly when the previous snapshot is absent
(unconditionally — including when the new one is also absent), or
presence flipped, or both snapshots are present and differ in player
count or in resolved map display name (the code compares `map`, not
`map_code`). -/
theorem changed_flag_spec (env : TickEnv) (st : BotState) (r : Option Snapshot) (b : Bool)
    (hf : env.fetch = FetchResult.ok r)
    (hb : (send_server_updates env st).changed = some b) :
    b = true ↔
      (st.last_server_state = none ∨
       r.isNone ≠ st.last_server_state.isNone ∨
       ∃ n l, r = some n ∧ st.last_server_state = some l ∧
         (n.current_players ≠ l.current_players ∨ n.map ≠ l.map)) := by
  rcases tick_ok_fields env st r hf with ⟨h1, -⟩ | ⟨h1, -⟩
  · rw [h1] at hb
    cases hb
  · rw [h1] at hb
    injection hb with hb2
    rw [← hb2]
    exact state_changed_iff _ _

/-- C1 is refuted as stated: with no previous snapshot and a fetch
that found nothing (both snapshots absent: no presence flip, no count
difference, no map difference), the tick still computes
`changed = true`, where the claim requires `false`. -/
theorem changed_flag_counterexample :
    envAbsent.fetch = FetchResult.ok none ∧
    (⟨some 1, none⟩ : BotState).last_server_state = none ∧
    (send_server_updates envAbsent ⟨some 1, none⟩).changed = some true := by
  refine ⟨rfl, rfl, ?_⟩
  decide

/-- Witness for C1 (amended): at the concrete both-absent tick the
equivalence holds with the first disjunct. -/
theorem changed_flag_spec_witness :
    (true = true) ↔
      ((none : Option Snapshot) = none ∨
       (none : Option Snapshot).isNone ≠ (none : Option Snapshot).isNone ∨
       ∃ n l, (none : Option Snapshot) = some n ∧
         (none : Option Snapshot) = some l ∧
         (n.current_players ≠ l.current_players ∨ n.map ≠ l.map)) :=
  changed_flag_spec envAbsent ⟨some 1, none⟩ none true rfl (by decide)

/-- C2 (amended): whenever a tick ends in the top-level exception
handler, the handler sets `current_message` to absent; but
`last_server_state` keeps the value it had when the exception was
raised — the pre-tick value if the failure happened during the fetch,
and the tick's new snapshot if it happened during the chat
send/edit dispatch (the state write at line 179 precedes dispatch). -/
theorem tick_failure_state (env : TickEnv) (st : BotState)
    (h : (send_server_updates env st).outcome = Outcome.failed) :
    (send_server_updates env st).state.current_message = none ∧
    ((env.fetch = FetchResult.exc ∧
        (send_server_updates env st).state.last_server_state = st.last_server_state) ∨
     (∃ r, env.fetch = FetchResult.ok r ∧
        (send_server_updates env st).state.last_server_state = r)) := by
  rcases env with ⟨cid, sn, cf, fr, sr, er⟩
  rcases st with ⟨cm, ls⟩
  cases cid with
  | none => exact Outcome.noConfusion h
  | some c =>
    unfold send_server_updates at h ⊢
    by_cases hsn : pyFalsyName sn = true
    · rw [if_pos hsn] at h
      exact Outcome.noConfusion h
    · rw [if_neg hsn] at h ⊢
      cases cf with
      | false => exact Outcome.noConfusion h
      | true =>
        cases fr with
        | exc => exact ⟨rfl, Or.inl ⟨rfl, rfl⟩⟩
        | ok r =>
          cases cm with
          | none =>
            cases sr with
            | ok m => exact Outcome.noConfusion h
            | exc => exact ⟨rfl, Or.inr ⟨r, rfl, rfl⟩⟩
          | some m0 =>
            cases er with
            | ok => exact Outcome.noConfusion h
            | notFound =>
              cases sr with
              | ok m => exact Outcome.noConfusion h
              | exc => exact ⟨rfl, Or.inr ⟨r, rfl, rfl⟩⟩
            | httpError =>
              cases sr with
              | ok m => exact Outcome.noConfusion h
              | exc => exact ⟨rfl, Or.inr ⟨r, rfl, rfl⟩⟩
            | exc => exact ⟨rfl, Or.inr ⟨r, rfl, rfl⟩⟩

/-- C2 is refuted as stated: a tick that fetched a new snapshot and
then hit an unclassified exception in the edit call ends with
`last_server_state` equal to the new snapshot, not its pre-tick
value (here: pre-tick `none`, post-tick `some snapBusy`), though
`current_message` is correctly reset to absent. -/
theorem tick_failure_counterexample :
    (send_server_updates envEditExc ⟨some 1, none⟩).outcome = Outcome.failed ∧
    (send_server_updates envEditExc ⟨some 1, none⟩).state.current_message = none ∧
    (send_server_updates envEditExc ⟨some 1, none⟩).state.last_server_state ≠
      (⟨some 1, none⟩ : BotState).last_server_state := by
  refine ⟨rfl, rfl, ?_⟩
  decide

/-- Witness for C2 (amended) at the concrete dispatch-failure tick. -/
theorem tick_failure_state_witness :
    (send_server_updates envEditExc ⟨some 1, none⟩).state.current_message = none ∧
    ((envEditExc.fetch = FetchResult.exc ∧
        (send_server_updates envEditExc ⟨some 1, none⟩).state.last_server_state = none) ∨
     (∃ r, envEditExc.fetch = FetchResult.ok r ∧
        (send_server_updates envEditExc ⟨some 1, none⟩).state.last_server_state = r)) :=
  tick_failure_state envEditExc ⟨some 1, none⟩ (by decide)

/-- C4: the status embed color is tri-state — whenever the tick
builds an embed its color is `tick_embed_color` of the fetched
snapshot, which is red `0xff0000` when the server is absent, green
`0x00ff00` when it is found with at least one player, and the
empty-but-found amber/orange constant `0xff6600` when it is found
with zero players. -/
theorem tick_color_tristate :
    (∀ (env : TickEnv) (st : BotState) (r : Option Snapshot),
       env.fetch = FetchResult.ok r →
         (send_server_updates env st).embedColor = none ∨
         (send_server_updates env st).embedColor = some (tick_embed_color r)) ∧
    tick_embed_color none = 0xff0000 ∧
    (∀ si : Snapshot, 0 < si.current_players → tick_embed_color (some si) = 0x00ff00) ∧
    (∀ si : Snapshot, si.current_players = 0 → tick_embed_color (some si) = 0xff6600) := by
  refine ⟨?_, rfl, ?_, ?_⟩
  · intro env st r hf
    exact (tick_ok_fields env st r hf).elim (fun h => Or.inl h.2) (fun h => Or.inr h.2)
  · intro si h
    simp [tick_embed_color, h]
  · intro si h
    simp [tick_embed_color, h]

/-- Witness for C4: the concrete empty-server tick carries the
empty-but-found color, an occupied snapshot is green, an empty one
is `0xff6600`. -/
theorem tick_color_tristate_witness :
    ((send_server_updates envNotFound ⟨some 1, none⟩).embedColor = none ∨
     (send_server_updates envNotFound ⟨some 1, none⟩).embedColor =
       some (tick_embed_color (some snapEmpty))) ∧
    tick_embed_color (some snapBusy) = 0x00ff00 ∧
    tick_embed_color (some snapEmpty) = 0xff6600 :=
  ⟨tick_color_tristate.1 envNotFound ⟨some 1, none⟩ (some snapEmpty) rfl,
   tick_color_tristate.2.2.1 snapBusy (by decide),
   tick_color_tristate.2.2.2 snapEmpty rfl⟩

/-- C9: on a fully configured tick holding a message handle, if the
in-place edit fails with "message not found", the tick performs one
extra chat call to create a fresh message, replaces the handle with
the new message's handle, and takes the
`recreatedAfterMissingMessage` path. -/
theorem tick_recreate_on_missing (env : TickEnv) (st : BotState) (cid : Int)
    (m m2 : Nat) (r : Option Snapshot)
    (hcid : env.updateChannelId = some cid)
    (hsn : pyFalsyName env.serverName = false)
    (hcf : env.channelFound = true)
    (hmsg : st.current_message = some m)
    (hfetch : env.fetch = FetchResult.ok r)
    (hedit : env.edit = EditResult.notFound)
    (hsend : env.send = SendResult.ok m2) :
    (send_server_updates env st).outcome = Outcome.recreatedAfterMissingMessage ∧
    (send_server_updates env st).state.current_message = some m2 ∧
    (send_server_updates env st).netCalls = 3 := by
  rcases env with ⟨cid2, sn, cf, fr, sr, er⟩
  rcases st with ⟨cm, ls⟩
  dsimp only at hcid hsn hcf hmsg hfetch hedit hsend
  subst hcid hcf hmsg hfetch hedit hsend
  have hsn2 : ¬ (pyFalsyName sn = true) := by simp [hsn]
  unfold send_server_updates
  rw [if_neg hsn2]
  exact ⟨rfl, rfl, rfl⟩

/-- Witness for C9 at a concrete tick whose edit reports the message
missing and whose recovery send returns handle 42. -/
theorem tick_recreate_on_missing_witness :
    (send_server_updates envNotFound ⟨some 9, some snapBusy⟩).outcome =
        Outcome.recreatedAfterMissingMessage ∧
    (send_server_updates envNotFound ⟨some 9, some snapBusy⟩).state.current_message =
        some 42 ∧
    (send_server_updates envNotFound ⟨some 9, some snapBusy⟩).netCalls = 3 :=
  tick_recreate_on_missing envNotFound ⟨some 9, some snapBusy⟩ 5 9 42 (some snapEmpty)
    rfl rfl rfl rfl rfl rfl rfl
